import Mathlib

/- Shallow embedding of src/backend/routes/videos.js (Express router for
   video ingestion, listing and removal).  Pure JS helpers become Lean
   functions; each request handler becomes a pure function from a request
   plus an environment (the outcomes of the external collaborators: the
   database lookups, the ffprobe run, the SSH transfers) to a response
   paired with the ordered list of side effects the handler performed. -/

namespace Sam60

/- ### JS string primitives used by the route -/

/-- Models `String.prototype.toLowerCase` restricted to ASCII (every string
this route lowercases is an ASCII extension or codec name); core
`Char.toLower` is exactly the A-Z to a-z map. -/
def jsToLowerStr (s : String) : String :=
  ⟨s.data.map Char.toLower⟩

/-- Characters of the basename, i.e. after the last path separator. -/
def afterLastSlash (l : List Char) : List Char :=
  (l.reverse.takeWhile (fun c => c ≠ '/')).reverse

/-- Suffix starting at the last dot of the list, if any. -/
def lastDotSuffix : List Char → Option (List Char)
  | [] => none
  | c :: rest =>
    match lastDotSuffix rest with
    | some e => some e
    | none => if c = '.' then some (c :: rest) else none

/-- Models `path.extname`: the suffix of the basename starting at its last
dot; a dot in first position of the basename does not start an extension. -/
def extname (s : String) : String :=
  match afterLastSlash s.data with
  | [] => ""
  | _ :: rest =>
    match lastDotSuffix rest with
    | some e => ⟨e⟩
    | none => ""

/-- Models `String.prototype.replace('.', '')`, which removes only the first
occurrence of the dot. -/
def removeFirstDotAux : List Char → List Char
  | [] => []
  | c :: rest => if c = '.' then rest else c :: removeFirstDotAux rest

/-- Models `String.prototype.includes`: the needle occurs as a contiguous
substring of the haystack. -/
def strIncludes (needle : List Char) : List Char → Bool
  | [] => needle.isEmpty
  | c :: rest => needle.isPrefixOf (c :: rest) || strIncludes needle rest

/- ### Compatibility helpers (videos.js lines 104-114) -/

/-- Lines 105-108: codec is compatible when its lowercase name is one of
h264, h265, hevc. -/
def isCompatibleCodec (codecName : String) : Bool :=
  ["h264", "h265", "hevc"].contains (jsToLowerStr codecName)

/-- Lines 111-114.  Despite its first parameter, the source only tests the
extension: `compatibleFormats.includes(extension?.toLowerCase()?.replace('.',''))`;
`formatName` is ignored. -/
def isCompatibleFormat (formatName : String) (extension : String) : Bool :=
  ["mp4"].contains ⟨removeFirstDotAux (jsToLowerStr extension).data⟩

/- ### Multer filename generation (videos.js lines 23-28) -/

/-- Line 25: `replace(/[^a-zA-Z0-9.-]/g, '_')` applied per character. -/
def sanitizeChar (c : Char) : Char :=
  if c.isAlphanum || c == '.' || c == '-' then c else '_'

/-- Line 26: `replace(/_{2,}/g, '_')` — each maximal run of two or more
underscores becomes a single underscore. -/
def collapseUnderscores : List Char → List Char
  | [] => []
  | [c] => [c]
  | a :: b :: rest =>
    if a = '_' ∧ b = '_' then collapseUnderscores (b :: rest)
    else a :: collapseUnderscores (b :: rest)

/-- Line 27: `${Date.now()}_${sanitizedName}` where `sanitizedName` is the
original filename sanitized and with underscore runs collapsed. -/
def generatedFilename (ts : Nat) (originalname : String) : String :=
  Nat.repr ts ++ "_" ++ ⟨collapseUnderscores (originalname.data.map sanitizeChar)⟩

/- ### ffprobe output and its parsing (videos.js lines 63-102, 277-321) -/

/-- The `format` section of the ffprobe report.  Numeric fields hold the
value the JS parsing would extract, with 0 standing for an absent field
(the `|| 0` fallbacks); `format_name` is `""` when absent. -/
structure FormatInfo where
  duration : Nat
  bit_rate : Nat
  format_name : String
deriving Repr, DecidableEq

/-- One entry of the `streams` array of the ffprobe report. -/
structure StreamInfo where
  codec_type : String
  codec_name : String
  width : Nat
  height : Nat
  bit_rate : Nat
deriving Repr, DecidableEq

/-- A successfully parsed ffprobe report (lines 85-96 resolve it only when
the process exits 0 with parseable JSON). -/
structure FfprobeInfo where
  format : Option FormatInfo
  streams : Option (List StreamInfo)
deriving Repr, DecidableEq

/-- The technical-metadata variables of the upload handler after the probe
step (lines 278-321). -/
structure ProbeFields where
  duracao : Nat
  bitrateVideo : Nat
  codecVideo : String
  largura : Nat
  altura : Nat
  formatoOriginal : String
deriving Repr, DecidableEq

/-- Lines 278-321: defaults first; on a successful probe the `format`
section fills duration, bitrate (bps to kbps by flooring division) and
format name, and the first stream with `codec_type === 'video'` fills codec,
width, height and — only when the format section gave no bitrate — the
stream bitrate.  A failed probe (`probed = none`) keeps every default. -/
def probeFields (fileExtension : String) (probed : Option FfprobeInfo) : ProbeFields :=
  let defaults : ProbeFields :=
    { duracao := 0, bitrateVideo := 0, codecVideo := "unknown",
      largura := 0, altura := 0, formatoOriginal := fileExtension.drop 1 }
  match probed with
  | none => defaults
  | some info =>
    let f1 :=
      match info.format with
      | some f =>
        { defaults with
            duracao := f.duration,
            bitrateVideo := f.bit_rate / 1000,
            formatoOriginal :=
              if f.format_name = "" then fileExtension.drop 1 else f.format_name }
      | none => defaults
    match info.streams with
    | some streams =>
      match streams.find? (fun s => s.codec_type == "video") with
      | some vs =>
        let f2 :=
          { f1 with
              codecVideo := if vs.codec_name = "" then "unknown" else vs.codec_name,
              largura := vs.width, altura := vs.height }
        if f1.bitrateVideo = 0 ∧ vs.bit_rate ≠ 0 then
          { f2 with bitrateVideo := vs.bit_rate / 1000 }
        else f2
      | none => f1
    | none => f1

/- ### Quota arithmetic (videos.js lines 344, 422-425, 607-613) -/

/-- Line 344 (and line 607): `Math.ceil(bytes / (1024 * 1024))`.  Exact for
every size below 2^53, because a double divides exactly by 2^20. -/
def spaceMBOf (tamanho : Nat) : Nat :=
  (tamanho + (1024 * 1024 - 1)) / (1024 * 1024)

/-- Lines 422-425: `UPDATE streamings SET espaco_usado = espaco_usado + ?`. -/
def reserveUsed (espaco_usado spaceMB : Nat) : Nat :=
  espaco_usado + spaceMB

/-- Lines 610-613:
`UPDATE streamings SET espaco_usado = GREATEST(espaco_usado - ?, 0)`. -/
def releaseUsed (espaco_usado spaceMB : Nat) : Int :=
  max ((espaco_usado : Int) - (spaceMB : Int)) 0

/- ### Requests, environments, responses, side-effect events -/

/-- Lines 262-265: the accepted video extensions. -/
def videoExtensions : List String :=
  [".mp4", ".avi", ".mov", ".wmv", ".flv", ".webm", ".mkv",
   ".3gp", ".3g2", ".ts", ".mpg", ".mpeg", ".ogv", ".m4v", ".asf"]

/-- One row of the `streamings` table as selected on lines 325-332. -/
structure Folder where
  codigo_servidor : Nat
  folder_name : String
  espaco : Nat
  espaco_usado : Nat
deriving Repr, DecidableEq

/-- The parts of the upload request the handler reads.  `filename` is the
multer-generated name (`generatedFilename`), `userBitrate` the account's
configured ceiling (`req.user.bitrate || 2500`), consumed only by the SSH
structure call on line 366 — the response-building code on line 447 instead
reads an undeclared variable, see `uploadPipeline`. -/
structure UploadReq where
  hasFile : Bool
  originalname : String
  filename : String
  size : Nat
  userId : Nat
  userLogin : String
  folderId : Option String
  userBitrate : Nat
deriving Repr, DecidableEq

/-- Outcomes of the external collaborators during one upload request. -/
structure UploadEnv where
  folder : Option Folder
  probe : Option FfprobeInfo
  placementOk : Bool
  insertOk : Bool
  insertId : Nat
deriving Repr, DecidableEq

/-- The row inserted into `videos` on lines 397-419. -/
structure VideoRecord where
  nome : String
  descricao : String
  url : String
  caminho : String
  duracao : Nat
  tamanho_arquivo : Nat
  codigo_cliente : Nat
  pasta : String
  bitrate_video : Nat
  formato_original : String
  codec_video : String
  largura : Nat
  altura : Nat
  is_mp4 : Nat
  compativel : String
deriving Repr, DecidableEq

/-- The JSON body of the 201 response (lines 452-470). -/
structure UploadBody where
  id : Nat
  nome : String
  url : String
  path : String
  originalFile : String
  bitrate_video : Nat
  codec_video : String
  formato_original : String
  largura : Nat
  altura : Nat
  is_mp4 : Bool
  needs_conversion : Bool
  compatibility_status : String
  compatibility_color : String
  duracao : Nat
  tamanho : Nat
  space_used_mb : Nat
deriving Repr, DecidableEq

/-- The error carried by a 500 response. -/
inductive PErr where
  | referenceError
  | transferError
  | persistenceError
deriving Repr, DecidableEq

/-- The `spaceInfo` breakdown of the 400 quota response (lines 353-359).
The floating-point `percentage` field is not modelled. -/
structure SpaceInfo where
  required : Nat
  available : Int
  total : Nat
  used : Nat
deriving Repr, DecidableEq

/-- The possible responses of the upload handler. -/
inductive UploadResp where
  | noFile
  | badExtension (ext : String)
  | folderNotFound
  | quotaExceeded (info : SpaceInfo)
  | created (body : UploadBody)
  | serverError (e : PErr)
deriving Repr, DecidableEq

/-- Side effects the handlers perform, in order. -/
inductive Event where
  | unlinkTemp
  | sshCreateStructure (serverId : Nat) (login : String)
  | sshCreateFolder (serverId : Nat) (login : String) (folderName : String)
  | sshUpload (remotePath : String)
  | dbInsert (recorded : VideoRecord)
  | quotaIncrement (folderId : String) (mb : Nat)
  | manifestRefresh
  | sshStat (remotePath : String)
  | sshDeleteRemote (remotePath : String)
  | dbDelete (videoId : Nat)
  | quotaRelease (folderId : String) (mb : Nat)
deriving Repr, DecidableEq

/- ### The upload handler (videos.js lines 248-483) -/

/-- The create pipeline.  Control flow follows the source line by line:
no file → 400; unsupported extension → unlink, 400; folder lookup empty →
404 with no unlink (lines 333-336 return before any cleanup); quota check
(line 347) → unlink, 400 with the space breakdown; SSH placement failure →
the inner catch unlinks and rethrows and the outer catch unlinks again and
answers 500; insert failure → same catches, with no remote delete and no
quota release; on success the temp file is unlinked (line 375), the record
inserted, `espaco_usado` incremented (line 422) and the SMIL manifest
refreshed.  Building the 201 body, line 447 compares `bitrateVideo` with
`userBitrateLimit`, a variable declared only inside the GET handler
(line 162) and nowhere in this handler, so when `needsConversion` is false
that read raises a ReferenceError which the catches turn into a 500 — after
the insert and the quota increment already happened. -/
def uploadPipeline (req : UploadReq) (env : UploadEnv) : UploadResp × List Event :=
  if req.hasFile = false then
    (.noFile, [])
  else
    let folderId := req.folderId.getD "default"
    let fileExtension := jsToLowerStr (extname req.originalname)
    if videoExtensions.contains fileExtension = false then
      (.badExtension fileExtension, [.unlinkTemp])
    else
      let pf := probeFields fileExtension env.probe
      let tamanho := req.size
      match env.folder with
      | none => (.folderNotFound, [])
      | some userData =>
        let serverId := if userData.codigo_servidor = 0 then 1 else userData.codigo_servidor
        let folderName := userData.folder_name
        let spaceMB := spaceMBOf tamanho
        let availableSpace : Int := (userData.espaco : Int) - (userData.espaco_usado : Int)
        if (spaceMB : Int) > availableSpace then
          (.quotaExceeded { required := spaceMB, available := availableSpace,
                            total := userData.espaco, used := userData.espaco_usado },
           [.unlinkTemp])
        else if env.placementOk = false then
          (.serverError .transferError,
           [.sshCreateStructure serverId req.userLogin,
            .sshCreateFolder serverId req.userLogin folderName,
            .unlinkTemp, .unlinkTemp])
        else
          let remotePath :=
            "/home/streaming/" ++ req.userLogin ++ "/" ++ folderName ++ "/" ++ req.filename
          let relativePath := req.userLogin ++ "/" ++ folderName ++ "/" ++ req.filename
          let videoTitle := req.originalname
          let isMP4 := fileExtension == ".mp4"
          let codecCompatible := isCompatibleCodec pf.codecVideo
          let needsConversion := !isMP4 || !codecCompatible
          let compatibilityStatus := if needsConversion then "nao" else "sim"
          let placed : List Event :=
            [.sshCreateStructure serverId req.userLogin,
             .sshCreateFolder serverId req.userLogin folderName,
             .sshUpload remotePath, .unlinkTemp]
          if env.insertOk = false then
            (.serverError .persistenceError, placed ++ [.unlinkTemp, .unlinkTemp])
          else
            let rec0 : VideoRecord :=
              { nome := videoTitle, descricao := "", url := relativePath,
                caminho := remotePath, duracao := pf.duracao,
                tamanho_arquivo := tamanho, codigo_cliente := req.userId,
                pasta := folderId, bitrate_video := pf.bitrateVideo,
                formato_original := pf.formatoOriginal, codec_video := pf.codecVideo,
                largura := pf.largura, altura := pf.altura,
                is_mp4 := if isMP4 then 1 else 0, compativel := compatibilityStatus }
            let committed := placed ++
              [.dbInsert rec0, .quotaIncrement folderId spaceMB, .manifestRefresh]
            if needsConversion then
              (.created
                { id := env.insertId, nome := videoTitle, url := relativePath,
                  path := remotePath, originalFile := remotePath,
                  bitrate_video := pf.bitrateVideo, codec_video := pf.codecVideo,
                  formato_original := fileExtension.drop 1,
                  largura := pf.largura, altura := pf.altura,
                  is_mp4 := fileExtension == ".mp4",
                  needs_conversion := needsConversion,
                  compatibility_status := "Necessário Conversão",
                  compatibility_color := "red",
                  duracao := pf.duracao, tamanho := tamanho,
                  space_used_mb := spaceMB },
               committed)
            else
              (.serverError .referenceError, committed ++ [.unlinkTemp, .unlinkTemp])

/- ### The list handler's per-row compatibility computation (lines 190-213) -/

/-- The columns of a `videos` row that lines 190-213 read. -/
structure DbVideoRow where
  nome : String
  bitrate_video : Nat
  codec_video : String
  formato_original : String
  is_mp4 : Nat
deriving Repr, DecidableEq

/-- The compatibility fields the GET handler computes for one row. -/
structure ListCompat where
  bitrate_exceeds_limit : Bool
  needs_conversion : Bool
  compatibility_status : String
  compatibility_message : String
  codec_compatible : Bool
  format_compatible : Bool
deriving Repr, DecidableEq

/-- Lines 190-213: the list endpoint re-derives compatibility at read time;
unlike the upload path, its `needsConversion` also folds in the format
check. -/
def listCompatibility (video : DbVideoRow) (userBitrateLimit : Nat) : ListCompat :=
  let currentBitrate := video.bitrate_video
  let bitrateExceedsLimit := decide (currentBitrate > userBitrateLimit)
  let fileExtension := jsToLowerStr (extname video.nome)
  let isMP4 := video.is_mp4 == 1
  let codecCompatible := isCompatibleCodec video.codec_video
  let formatCompatible := isCompatibleFormat video.formato_original fileExtension
  let needsConversion := !isMP4 || !codecCompatible || !formatCompatible
  let status :=
    if needsConversion then "needs_conversion"
    else if bitrateExceedsLimit then "bitrate_high" else "compatible"
  let message :=
    if needsConversion then "Necessário Conversão"
    else if bitrateExceedsLimit then "Bitrate Alto" else "Compatível"
  { bitrate_exceeds_limit := bitrateExceedsLimit,
    needs_conversion := needsConversion,
    compatibility_status := status,
    compatibility_message := message,
    codec_compatible := codecCompatible,
    format_compatible := formatCompatible }

/- ### The delete handler (videos.js lines 543-622) -/

/-- The delete request fields the handler reads. -/
structure DeleteReq where
  videoId : Nat
  userId : Nat
  userLogin : String
deriving Repr, DecidableEq

/-- The `videos` columns selected on lines 550-553. -/
structure DbVideoDeleteRow where
  caminho : String
  nome : String
  tamanho_arquivo : Nat
  pasta : String
deriving Repr, DecidableEq

/-- Outcomes of the external collaborators during one delete request.
`statSize` is the SSH stat used only when the stored size is 0: `some n`
when the remote file exists with size n, `none` when it is absent or the
stat failed (both leave the size at 0). -/
structure DeleteEnv where
  video : Option DbVideoDeleteRow
  serverId : Nat
  statSize : Option Nat
  remoteDeleteOk : Bool
deriving Repr, DecidableEq

/-- The possible responses of the delete handler. -/
inductive DeleteResp where
  | notFound
  | forbidden
  | ok
deriving Repr, DecidableEq

/-- Lines 543-622: lookup → 404; owner's login segment must appear in the
stored path → 403; the remote delete is best effort (its failure and the
manifest refresh are logged only); the record is then deleted and
`espaco_usado` decremented by `spaceMBOf` of the (possibly stat-recovered)
size via GREATEST(…, 0). -/
def deletePipeline (req : DeleteReq) (env : DeleteEnv) : DeleteResp × List Event :=
  match env.video with
  | none => (.notFound, [])
  | some row =>
    if strIncludes ("/" ++ req.userLogin ++ "/").data row.caminho.data = false then
      (.forbidden, [])
    else
      let remotePath :=
        if row.caminho.startsWith "/home/streaming" then row.caminho
        else "/home/streaming/" ++ row.caminho
      let fileSize :=
        if row.tamanho_arquivo = 0 then
          match env.statSize with
          | some n => n
          | none => 0
        else row.tamanho_arquivo
      let statEvents : List Event :=
        if row.tamanho_arquivo = 0 then [.sshStat remotePath] else []
      let delEvents : List Event :=
        if env.remoteDeleteOk then [.sshDeleteRemote remotePath, .manifestRefresh] else []
      let spaceMB := spaceMBOf fileSize
      (.ok, statEvents ++ delEvents ++
        [.dbDelete req.videoId, .quotaRelease row.pasta spaceMB])

/- ### Auxiliary definitions for the claims -/

/-- The characters the generated filename may contain: the characters the
sanitizer keeps plus the underscore it substitutes. -/
def safeFilenameChar (c : Char) : Bool :=
  (c.isAlphanum || c == '.' || c == '-') || c == '_'

/- ### Concrete requests and environments used by counterexamples and
witnesses.  One family per claim. -/

def c1Req : UploadReq :=
  { hasFile := true, originalname := "video.mp4", filename := "1700000000000_video.mp4",
    size := 62914560, userId := 7, userLogin := "alice", folderId := some "2",
    userBitrate := 2500 }

def c1Env : UploadEnv :=
  { folder := some { codigo_servidor := 1, folder_name := "filmes",
                     espaco := 1000, espaco_usado := 100 },
    probe := some { format := some { duration := 120, bit_rate := 3000000,
                                     format_name := "mov,mp4,m4a,3gp,3g2,mj2" },
                    streams := some [{ codec_type := "video", codec_name := "h264",
                                       width := 1920, height := 1080, bit_rate := 0 }] },
    placementOk := true, insertOk := true, insertId := 55 }

def c2Folder : Folder :=
  { codigo_servidor := 1, folder_name := "filmes", espaco := 1000, espaco_usado := 100 }

def c2Req : UploadReq :=
  { hasFile := true, originalname := "movie.mkv", filename := "1700000000000_movie.mkv",
    size := 10485760, userId := 7, userLogin := "alice", folderId := some "2",
    userBitrate := 2500 }

def c2Env : UploadEnv :=
  { folder := some c2Folder, probe := none, placementOk := true, insertOk := false,
    insertId := 0 }

def c3aReq : UploadReq :=
  { hasFile := true, originalname := "video.mp4", filename := "1700000000000_video.mp4",
    size := 1048576, userId := 7, userLogin := "alice", folderId := some "9",
    userBitrate := 2500 }

def c3aEnv : UploadEnv :=
  { folder := none, probe := none, placementOk := true, insertOk := true, insertId := 0 }

def c3bReq : UploadReq :=
  { hasFile := true, originalname := "notes.txt", filename := "1700000000000_notes.txt",
    size := 1024, userId := 7, userLogin := "alice", folderId := some "2",
    userBitrate := 2500 }

def c3bEnv : UploadEnv :=
  { folder := none, probe := none, placementOk := true, insertOk := true, insertId := 0 }

def c4aReq : UploadReq :=
  { hasFile := true, originalname := "movie.mkv", filename := "1700000000000_movie.mkv",
    size := 10485760, userId := 7, userLogin := "alice", folderId := some "2",
    userBitrate := 2500 }

def c4aEnv : UploadEnv :=
  { folder := some { codigo_servidor := 1, folder_name := "filmes",
                     espaco := 1000, espaco_usado := 100 },
    probe := none, placementOk := true, insertOk := true, insertId := 77 }

def c4bReq : UploadReq := c4aReq

def c4bEnv : UploadEnv :=
  { folder := some { codigo_servidor := 1, folder_name := "filmes",
                     espaco := 1000, espaco_usado := 100 },
    probe := none, placementOk := false, insertOk := true, insertId := 0 }

def c5Folder : Folder :=
  { codigo_servidor := 1, folder_name := "filmes", espaco := 1000, espaco_usado := 995 }

def c5Req : UploadReq :=
  { hasFile := true, originalname := "video.mp4", filename := "1700000000000_video.mp4",
    size := 6291456, userId := 7, userLogin := "alice", folderId := some "2",
    userBitrate := 2500 }

def c5Env : UploadEnv :=
  { folder := some c5Folder, probe := none, placementOk := true, insertOk := true,
    insertId := 0 }

def c6Folder : Folder :=
  { codigo_servidor := 1, folder_name := "filmes", espaco := 1000, espaco_usado := 0 }

def c6Req : UploadReq :=
  { hasFile := true, originalname := "video.mp4", filename := "1700000000000_video.mp4",
    size := 1048576, userId := 7, userLogin := "alice", folderId := some "2",
    userBitrate := 2500 }

def c6Env : UploadEnv :=
  { folder := some c6Folder, probe := none, placementOk := true, insertOk := true,
    insertId := 91 }

def c7Folder : Folder :=
  { codigo_servidor := 1, folder_name := "filmes", espaco := 1000, espaco_usado := 0 }

def c7Req : UploadReq :=
  { hasFile := true, originalname := "movie.mkv", filename := "1700000000000_movie.mkv",
    size := 1048576, userId := 7, userLogin := "alice", folderId := some "2",
    userBitrate := 2500 }

def c7Env : UploadEnv :=
  { folder := some c7Folder,
    probe := some { format := some { duration := 60, bit_rate := 3000000,
                                     format_name := "matroska,webm" },
                    streams := some [{ codec_type := "video", codec_name := "h264",
                                       width := 1280, height := 720, bit_rate := 0 }] },
    placementOk := true, insertOk := true, insertId := 12 }

def c7Row : DbVideoRow :=
  { nome := "1700000000000_movie.mkv", bitrate_video := 3000, codec_video := "h264",
    formato_original := "matroska,webm", is_mp4 := 1 }

def c8Folder : Folder :=
  { codigo_servidor := 1, folder_name := "filmes", espaco := 1000, espaco_usado := 995 }

def c8Req : UploadReq :=
  { hasFile := true, originalname := "video.mp4", filename := "1700000000000_video.mp4",
    size := 6291456, userId := 7, userLogin := "alice", folderId := some "2",
    userBitrate := 2500 }

def c8Env : UploadEnv :=
  { folder := some c8Folder, probe := none, placementOk := true, insertOk := true,
    insertId := 0 }

def c9Req : UploadReq :=
  { hasFile := true, originalname := "video.mp4", filename := "1700000000000_video.mp4",
    size := 1048576, userId := 7, userLogin := "alice", folderId := none,
    userBitrate := 2500 }

def c9Env : UploadEnv :=
  { folder := none, probe := none, placementOk := true, insertOk := true, insertId := 0 }

/- ### Helper lemmas -/

theorem char_toNat_ofNat_valid {n : Nat} (h : n.isValidChar) :
    (Char.ofNat n).toNat = n := by
  rw [Char.ofNat, dif_pos h]
  rfl

theorem toLower_toNat_of_upper {c : Char} (h : 65 ≤ c.toNat ∧ c.toNat ≤ 90) :
    (Char.toLower c).toNat = c.toNat + 32 := by
  rw [Char.toLower, if_pos h]
  exact char_toNat_ofNat_valid (Or.inl (by omega))

theorem toLower_eq_self {c : Char} (h : ¬ (65 ≤ c.toNat ∧ c.toNat ≤ 90)) :
    Char.toLower c = c := by
  rw [Char.toLower, if_neg h]

theorem toLower_idem (c : Char) :
    Char.toLower (Char.toLower c) = Char.toLower c := by
  by_cases h : 65 ≤ c.toNat ∧ c.toNat ≤ 90
  · have h2 := toLower_toNat_of_upper h
    apply toLower_eq_self
    omega
  · rw [toLower_eq_self h, toLower_eq_self h]

theorem jsToLowerStr_idem (s : String) :
    jsToLowerStr (jsToLowerStr s) = jsToLowerStr s := by
  simp [jsToLowerStr, List.map_map, Function.comp_def, toLower_idem]

theorem lastDotSuffix_eq_some :
    ∀ (l : List Char) (e : List Char), lastDotSuffix l = some e → ∃ t, e = '.' :: t
  | [], e, h => by simp [lastDotSuffix] at h
  | c :: rest, e, h => by
    rw [lastDotSuffix] at h
    cases hr : lastDotSuffix rest with
    | some e2 =>
      rw [hr] at h
      exact (Option.some.injEq _ _ ▸ h) ▸ lastDotSuffix_eq_some rest e2 hr
    | none =>
      rw [hr] at h
      by_cases hc : c = '.'
      · rw [if_pos hc] at h
        exact ⟨rest, by simpa [hc] using h.symm⟩
      · rw [if_neg hc] at h
        exact absurd h (by simp)

theorem extname_shape (s : String) :
    extname s = "" ∨ ∃ t, (extname s).data = '.' :: t := by
  rw [extname]
  cases afterLastSlash s.data with
  | nil => exact Or.inl rfl
  | cons b rest =>
    cases hd : lastDotSuffix rest with
    | none => simp [hd]
    | some e =>
      obtain ⟨t, ht⟩ := lastDotSuffix_eq_some rest e hd
      right
      exact ⟨t, by simp [hd, ht]⟩

theorem toLower_dot : Char.toLower '.' = '.' := by decide

theorem jsToLowerStr_data (s : String) :
    (jsToLowerStr s).data = s.data.map Char.toLower := rfl

theorem lowered_extname_shape (s : String) :
    jsToLowerStr (extname s) = "" ∨ ∃ t, (jsToLowerStr (extname s)).data = '.' :: t := by
  rcases extname_shape s with h | ⟨t, ht⟩
  · left
    rw [h]
    rfl
  · right
    refine ⟨t.map Char.toLower, ?_⟩
    rw [jsToLowerStr_data, ht, List.map_cons, toLower_dot]

theorem removeFirstDotAux_cons_dot (t : List Char) :
    removeFirstDotAux ('.' :: t) = t := by
  simp [removeFirstDotAux]

theorem contains_mp4 (x : String) : (["mp4"].contains x) = (x == "mp4") := by
  cases h : x == "mp4" <;> simp [List.contains, List.elem, h]

theorem isCompatibleFormat_false (fmt e : String)
    (hshape : e = "" ∨ ∃ t, e.data = '.' :: t)
    (hlow : jsToLowerStr e = e)
    (hne : e ≠ ".mp4") :
    isCompatibleFormat fmt e = false := by
  rw [isCompatibleFormat, hlow]
  rcases hshape with h | ⟨t, ht⟩
  · subst h
    decide
  · rw [ht, removeFirstDotAux_cons_dot, contains_mp4]
    rw [beq_eq_false_iff_ne]
    intro heq
    apply hne
    apply String.ext
    rw [ht]
    have hdata : t = ("mp4" : String).data := congrArg String.data heq
    rw [hdata]

theorem listCompat_forces_conversion (row : DbVideoRow) (limit : Nat)
    (hne : jsToLowerStr (extname row.nome) ≠ ".mp4") :
    (listCompatibility row limit).needs_conversion = true ∧
    (listCompatibility row limit).compatibility_status = "needs_conversion" := by
  have hfc : isCompatibleFormat row.formato_original (jsToLowerStr (extname row.nome)) = false :=
    isCompatibleFormat_false _ _ (lowered_extname_shape row.nome) (jsToLowerStr_idem _) hne
  constructor <;> simp [listCompatibility, hfc]

theorem digitChar_mod_isDigit (m : Nat) : (Nat.digitChar (m % 10)).isDigit = true := by
  have h : m % 10 < 10 := Nat.mod_lt _ (by decide)
  revert h
  generalize m % 10 = r
  intro h
  interval_cases r <;> decide

theorem toDigitsCore_digits (fuel : Nat) :
    ∀ (n : Nat) (ds : List Char), (∀ c ∈ ds, c.isDigit = true) →
      ∀ c ∈ Nat.toDigitsCore 10 fuel n ds, c.isDigit = true := by
  induction fuel with
  | zero =>
    intro n ds hds c hc
    exact hds c (by simpa [Nat.toDigitsCore] using hc)
  | succ fuel ih =>
    intro n ds hds c hc
    rw [Nat.toDigitsCore] at hc
    by_cases h0 : n / 10 = 0
    · rw [if_pos h0] at hc
      rcases List.mem_cons.mp hc with h | h
      · rw [h]
        exact digitChar_mod_isDigit n
      · exact hds c h
    · rw [if_neg h0] at hc
      refine ih (n / 10) (Nat.digitChar (n % 10) :: ds) ?_ c hc
      intro d hd
      rcases List.mem_cons.mp hd with h | h
      · rw [h]
        exact digitChar_mod_isDigit n
      · exact hds d h

theorem nat_repr_digits (n : Nat) : ∀ c ∈ (Nat.repr n).data, c.isDigit = true := by
  intro c hc
  have hrepr : (Nat.repr n).data = Nat.toDigits 10 n := rfl
  rw [hrepr, Nat.toDigits] at hc
  exact toDigitsCore_digits (n + 1) n [] (by simp) c hc

theorem mem_collapseUnderscores :
    ∀ (l : List Char) (c : Char), c ∈ collapseUnderscores l → c ∈ l
  | [], c, h => by simpa [collapseUnderscores] using h
  | [d], c, h => by simpa [collapseUnderscores] using h
  | a :: b :: rest, c, h => by
    rw [collapseUnderscores] at h
    split at h
    · exact List.mem_cons_of_mem _ (mem_collapseUnderscores (b :: rest) c h)
    · rcases List.mem_cons.mp h with h1 | h2
      · rw [h1]
        exact List.mem_cons_self _ _
      · exact List.mem_cons_of_mem _ (mem_collapseUnderscores (b :: rest) c h2)

theorem sanitizeChar_safe (c : Char) : safeFilenameChar (sanitizeChar c) = true := by
  rw [sanitizeChar]
  by_cases h : (c.isAlphanum || c == '.' || c == '-') = true
  · rw [if_pos h, safeFilenameChar, h, Bool.true_or]
  · rw [if_neg h]
    decide

theorem string_data_append (s t : String) : (s ++ t).data = s.data ++ t.data := by
  cases s
  cases t
  rfl

theorem generatedFilename_data (ts : Nat) (orig : String) :
    (generatedFilename ts orig).data =
      (Nat.repr ts).data ++ '_' :: collapseUnderscores (orig.data.map sanitizeChar) := by
  rw [generatedFilename, string_data_append, string_data_append]
  rw [List.append_assoc]
  rfl

theorem uploadPipeline_commit_positions (req : UploadReq) (env : UploadEnv) (f : Folder)
    (hfile : req.hasFile = true)
    (hext : jsToLowerStr (extname req.originalname) ∈ videoExtensions)
    (hfolder : env.folder = some f)
    (hquota : ¬ ((spaceMBOf req.size : Int) > (f.espaco : Int) - (f.espaco_usado : Int)))
    (hplace : env.placementOk = true)
    (hins : env.insertOk = true) :
    (∃ p, (uploadPipeline req env).2[2]? = some (Event.sshUpload p)) ∧
    (∃ r, (uploadPipeline req env).2[4]? = some (Event.dbInsert r)) ∧
    (uploadPipeline req env).2[5]? =
      some (Event.quotaIncrement (req.folderId.getD "default") (spaceMBOf req.size)) ∧
    (∀ fid mb, Event.quotaIncrement fid mb ∈ (uploadPipeline req env).2 →
      fid = req.folderId.getD "default" ∧ mb = spaceMBOf req.size) := by
  by_cases h5 : (!(jsToLowerStr (extname req.originalname) == ".mp4") ||
      !isCompatibleCodec (probeFields (jsToLowerStr (extname req.originalname)) env.probe).codecVideo) = true
  · simp [uploadPipeline, hfile, hext, hfolder, hquota, hplace, hins, h5]
  · simp [uploadPipeline, hfile, hext, hfolder, hquota, hplace, hins, h5]

/- ### The claims -/

/-- C1: the spec scenario — a `.mp4` upload probed as h264 at 3000 kbps by an
account with a 2500 kbps ceiling — is supposed to answer 201 with status
"bitrate_high".  The code instead evaluates `bitrateVideo > userBitrateLimit`
(line 447) where `userBitrateLimit` is declared only inside the GET handler,
raising a ReferenceError, so the route answers 500 — after the record was
inserted and the quota incremented.  This theorem evaluates the pipeline at
exactly that failing input. -/
theorem C1_compatible_mp4_upload_crashes :
    uploadPipeline c1Req c1Env =
      (UploadResp.serverError PErr.referenceError,
       [Event.sshCreateStructure 1 "alice",
        Event.sshCreateFolder 1 "alice" "filmes",
        Event.sshUpload "/home/streaming/alice/filmes/1700000000000_video.mp4",
        Event.unlinkTemp,
        Event.dbInsert
          { nome := "video.mp4", descricao := "",
            url := "alice/filmes/1700000000000_video.mp4",
            caminho := "/home/streaming/alice/filmes/1700000000000_video.mp4",
            duracao := 120, tamanho_arquivo := 62914560, codigo_cliente := 7,
            pasta := "2", bitrate_video := 3000,
            formato_original := "mov,mp4,m4a,3gp,3g2,mj2", codec_video := "h264",
            largura := 1920, altura := 1080, is_mp4 := 1, compativel := "sim" },
        Event.quotaIncrement "2" 60, Event.manifestRefresh,
        Event.unlinkTemp, Event.unlinkTemp]) ∧
    3000 > c1Req.userBitrate := by
  constructor
  · rfl
  · decide

/-- C2 counterexample: remote placement succeeds, the insert fails, and the
pipeline performs no remote delete and no quota release — the remote file is
orphaned, refuting the claimed compensation. -/
theorem C2_insert_failure_no_compensation :
    uploadPipeline c2Req c2Env =
      (UploadResp.serverError PErr.persistenceError,
       [Event.sshCreateStructure 1 "alice",
        Event.sshCreateFolder 1 "alice" "filmes",
        Event.sshUpload "/home/streaming/alice/filmes/1700000000000_movie.mkv",
        Event.unlinkTemp, Event.unlinkTemp, Event.unlinkTemp]) ∧
    Event.sshDeleteRemote "/home/streaming/alice/filmes/1700000000000_movie.mkv" ∉
      (uploadPipeline c2Req c2Env).2 ∧
    Event.quotaRelease "2" 10 ∉ (uploadPipeline c2Req c2Env).2 := by
  refine ⟨rfl, ?_, ?_⟩ <;> decide

/-- C2 amended: when placement succeeds and the insert fails, the pipeline
only deletes the local temp file and answers 500; the remote file is not
deleted, and no quota mutation happens at all (the used-capacity increment
only occurs after a successful insert, so there is no reservation to
release). -/
theorem C2_amended_insert_failure (req : UploadReq) (env : UploadEnv) (f : Folder)
    (hfile : req.hasFile = true)
    (hext : jsToLowerStr (extname req.originalname) ∈ videoExtensions)
    (hfolder : env.folder = some f)
    (hquota : ¬ ((spaceMBOf req.size : Int) > (f.espaco : Int) - (f.espaco_usado : Int)))
    (hplace : env.placementOk = true)
    (hins : env.insertOk = false) :
    (uploadPipeline req env).1 = UploadResp.serverError PErr.persistenceError ∧
    (∃ p, Event.sshUpload p ∈ (uploadPipeline req env).2) ∧
    (∀ p, Event.sshDeleteRemote p ∉ (uploadPipeline req env).2) ∧
    (∀ fid mb, Event.quotaIncrement fid mb ∉ (uploadPipeline req env).2) ∧
    (∀ fid mb, Event.quotaRelease fid mb ∉ (uploadPipeline req env).2) ∧
    (∀ r, Event.dbInsert r ∉ (uploadPipeline req env).2) ∧
    Event.unlinkTemp ∈ (uploadPipeline req env).2 := by
  simp [uploadPipeline, hfile, hext, hfolder, hquota, hplace, hins]

theorem C2_amended_witness :
    c2Env.placementOk = true ∧ c2Env.insertOk = false ∧
    ((uploadPipeline c2Req c2Env).1 = UploadResp.serverError PErr.persistenceError ∧
     (∃ p, Event.sshUpload p ∈ (uploadPipeline c2Req c2Env).2) ∧
     (∀ p, Event.sshDeleteRemote p ∉ (uploadPipeline c2Req c2Env).2) ∧
     (∀ fid mb, Event.quotaIncrement fid mb ∉ (uploadPipeline c2Req c2Env).2) ∧
     (∀ fid mb, Event.quotaRelease fid mb ∉ (uploadPipeline c2Req c2Env).2) ∧
     (∀ r, Event.dbInsert r ∉ (uploadPipeline c2Req c2Env).2) ∧
     Event.unlinkTemp ∈ (uploadPipeline c2Req c2Env).2) :=
  ⟨rfl, rfl,
   C2_amended_insert_failure c2Req c2Env c2Folder rfl (by decide) rfl (by decide) rfl rfl⟩

/-- C3 counterexample: on the destination-not-found exit path (lines
333-336) the handler returns 404 without deleting the temp file, refuting
"deleted on every exit path". -/
theorem C3_folder_not_found_leaks_temp :
    c3aReq.hasFile = true ∧
    uploadPipeline c3aReq c3aEnv = (UploadResp.folderNotFound, []) ∧
    Event.unlinkTemp ∉ (uploadPipeline c3aReq c3aEnv).2 := by
  refine ⟨rfl, rfl, ?_⟩
  decide

/-- C3 amended: on every exit path of the create pipeline except the
destination-not-found rejection — early validation rejection, quota
exceeded, placement or persistence failure, and success — the temp file is
deleted before the response. -/
theorem C3_amended_cleanup (req : UploadReq) (env : UploadEnv)
    (hfile : req.hasFile = true)
    (hnf : (uploadPipeline req env).1 ≠ UploadResp.folderNotFound) :
    Event.unlinkTemp ∈ (uploadPipeline req env).2 := by
  by_cases h1 : jsToLowerStr (extname req.originalname) ∈ videoExtensions
  · rcases henv : env.folder with _ | f
    · exact absurd (by simp [uploadPipeline, hfile, h1, henv]) hnf
    · by_cases h2 : ((spaceMBOf req.size : Int) > (f.espaco : Int) - (f.espaco_usado : Int))
      · simp [uploadPipeline, hfile, h1, henv, h2]
      · cases h3 : env.placementOk with
        | false => simp [uploadPipeline, hfile, h1, henv, h2, h3]
        | true =>
          cases h4 : env.insertOk with
          | false => simp [uploadPipeline, hfile, h1, henv, h2, h3, h4]
          | true =>
            simp only [uploadPipeline, hfile, h1, henv, h2, h3, h4]
            simp [h1, h2]
            split <;> simp
  · simp [uploadPipeline, hfile, h1]

theorem C3_amended_witness :
    c3bReq.hasFile = true ∧
    (uploadPipeline c3bReq c3bEnv).1 ≠ UploadResp.folderNotFound ∧
    Event.unlinkTemp ∈ (uploadPipeline c3bReq c3bEnv).2 :=
  ⟨rfl, by decide, C3_amended_cleanup c3bReq c3bEnv rfl (by decide)⟩

/-- C4 counterexample: in a successful ingestion the remote transfer occurs
strictly before the used-capacity increment, refuting "the quota reservation
happens before the remote transfer". -/
theorem C4_increment_after_transfer :
    Event.sshUpload "/home/streaming/alice/filmes/1700000000000_movie.mkv" ∈
      (uploadPipeline c4aReq c4aEnv).2 ∧
    Event.quotaIncrement "2" 10 ∈ (uploadPipeline c4aReq c4aEnv).2 ∧
    List.indexOf (Event.sshUpload "/home/streaming/alice/filmes/1700000000000_movie.mkv")
        (uploadPipeline c4aReq c4aEnv).2 <
      List.indexOf (Event.quotaIncrement "2" 10) (uploadPipeline c4aReq c4aEnv).2 := by
  refine ⟨?_, ?_, ?_⟩ <;> decide

/-- C4 amended: the quota availability check (not the increment) happens
before the remote transfer — a transfer event only occurs when the check
passed; the used-capacity increment occurs only when placement and insert
both succeeded, and then strictly after them in the effect order (transfer
at trace position 2, insert at position 4, increment at position 5); when
placement fails no increment has been made, and the upload pipeline never
issues a quota release at all, so no release compensation occurs (none is
needed). -/
theorem C4_amended_quota_order (req : UploadReq) (env : UploadEnv) :
    (∀ p, Event.sshUpload p ∈ (uploadPipeline req env).2 →
       ∃ f, env.folder = some f ∧
         ¬ ((spaceMBOf req.size : Int) > (f.espaco : Int) - (f.espaco_usado : Int))) ∧
    (∀ fid mb, Event.quotaIncrement fid mb ∈ (uploadPipeline req env).2 →
       env.placementOk = true ∧ env.insertOk = true ∧
       (∃ p, (uploadPipeline req env).2[2]? = some (Event.sshUpload p)) ∧
       (∃ r, (uploadPipeline req env).2[4]? = some (Event.dbInsert r)) ∧
       (uploadPipeline req env).2[5]? = some (Event.quotaIncrement fid mb)) ∧
    (env.placementOk = false →
       ∀ fid mb, Event.quotaIncrement fid mb ∉ (uploadPipeline req env).2) ∧
    (∀ fid mb, Event.quotaRelease fid mb ∉ (uploadPipeline req env).2) := by
  cases h0 : req.hasFile with
  | false => simp [uploadPipeline, h0]
  | true =>
    by_cases h1 : jsToLowerStr (extname req.originalname) ∈ videoExtensions
    · rcases henv : env.folder with _ | f
      · simp [uploadPipeline, h0, h1, henv]
      · by_cases h2 : ((spaceMBOf req.size : Int) > (f.espaco : Int) - (f.espaco_usado : Int))
        · simp [uploadPipeline, h0, h1, henv, h2]
        · cases h3 : env.placementOk with
          | false => simp [uploadPipeline, h0, h1, henv, h2, h3]
          | true =>
            cases h4 : env.insertOk with
            | false =>
              refine ⟨fun p hp => ⟨f, rfl, h2⟩, ?_, ?_, ?_⟩
              · intro fid mb hmem
                simp [uploadPipeline, h0, h1, henv, h2, h3, h4] at hmem
              · intro hfalse
                simp at hfalse
              · intro fid mb
                simp [uploadPipeline, h0, h1, henv, h2, h3, h4]
            | true =>
              refine ⟨fun p hp => ⟨f, rfl, h2⟩, ?_, ?_, ?_⟩
              · intro fid mb hmem
                obtain ⟨hp2, hp4, hp5, hpin⟩ :=
                  uploadPipeline_commit_positions req env f h0 h1 henv h2 h3 h4
                obtain ⟨hfid, hmb⟩ := hpin fid mb hmem
                subst hfid
                subst hmb
                exact ⟨rfl, rfl, hp2, hp4, hp5⟩
              · intro hfalse
                simp at hfalse
              · intro fid mb
                by_cases h5 : (!(jsToLowerStr (extname req.originalname) == ".mp4") ||
                    !isCompatibleCodec
                      (probeFields (jsToLowerStr (extname req.originalname)) env.probe).codecVideo) = true
                · simp [uploadPipeline, h0, h1, henv, h2, h3, h4, h5]
                · simp [uploadPipeline, h0, h1, henv, h2, h3, h4, h5]
    · simp [uploadPipeline, h0, h1]

theorem C4_amended_witness :
    c4bEnv.placementOk = false ∧
    Event.quotaIncrement "2" 10 ∉ (uploadPipeline c4bReq c4bEnv).2 ∧
    Event.quotaRelease "2" 10 ∉ (uploadPipeline c4bReq c4bEnv).2 ∧
    Event.quotaIncrement "2" 10 ∈ (uploadPipeline c4aReq c4aEnv).2 ∧
    c4aEnv.placementOk = true ∧ c4aEnv.insertOk = true ∧
    (∃ p, (uploadPipeline c4aReq c4aEnv).2[2]? = some (Event.sshUpload p)) ∧
    (∃ r, (uploadPipeline c4aReq c4aEnv).2[4]? = some (Event.dbInsert r)) ∧
    (uploadPipeline c4aReq c4aEnv).2[5]? = some (Event.quotaIncrement "2" 10) := by
  obtain ⟨hplaceT, hinsT, hpos2, hpos4, hpos5⟩ :=
    (C4_amended_quota_order c4aReq c4aEnv).2.1 "2" 10 (by decide)
  exact ⟨rfl, (C4_amended_quota_order c4bReq c4bEnv).2.2.1 rfl "2" 10,
         (C4_amended_quota_order c4bReq c4bEnv).2.2.2 "2" 10, by decide,
         hplaceT, hinsT, hpos2, hpos4, hpos5⟩

/-- C5: any upload whose ceil-megabyte size exceeds the destination's
available space is rejected with the structured quota breakdown, the only
side effect being the temp-file unlink; the witness instantiates the spec's
6,291,456-byte / 1000 MB / 995 MB scenario with required = 6 and
available = 5. -/
theorem C5_quota_rejection (req : UploadReq) (env : UploadEnv) (f : Folder)
    (hfile : req.hasFile = true)
    (hext : videoExtensions.contains (jsToLowerStr (extname req.originalname)) = true)
    (hfolder : env.folder = some f)
    (hover : ((spaceMBOf req.size : Int) > (f.espaco : Int) - (f.espaco_usado : Int))) :
    uploadPipeline req env =
      (UploadResp.quotaExceeded
        { required := spaceMBOf req.size,
          available := (f.espaco : Int) - (f.espaco_usado : Int),
          total := f.espaco, used := f.espaco_usado },
       [Event.unlinkTemp]) := by
  simp only [uploadPipeline, hfile, hext, hfolder]
  simp [hover]

theorem C5_witness :
    spaceMBOf c5Req.size = 6 ∧
    (c5Folder.espaco : Int) - (c5Folder.espaco_usado : Int) = 5 ∧
    ((spaceMBOf c5Req.size : Int) > (c5Folder.espaco : Int) - (c5Folder.espaco_usado : Int)) ∧
    uploadPipeline c5Req c5Env =
      (UploadResp.quotaExceeded
        { required := spaceMBOf c5Req.size,
          available := (c5Folder.espaco : Int) - (c5Folder.espaco_usado : Int),
          total := c5Folder.espaco, used := c5Folder.espaco_usado },
       [Event.unlinkTemp]) :=
  ⟨by decide, by decide, by decide,
   C5_quota_rejection c5Req c5Env c5Folder rfl (by decide) rfl (by decide)⟩

/-- C6: when the probe fails the ingestion still completes: the response is
201 and the inserted VideoRecord carries duration 0, bitrate 0 and codec
"unknown". -/
theorem C6_probe_failure_defaults (req : UploadReq) (env : UploadEnv) (f : Folder)
    (hfile : req.hasFile = true)
    (hext : jsToLowerStr (extname req.originalname) ∈ videoExtensions)
    (hprobe : env.probe = none)
    (hfolder : env.folder = some f)
    (hquota : ¬ ((spaceMBOf req.size : Int) > (f.espaco : Int) - (f.espaco_usado : Int)))
    (hplace : env.placementOk = true)
    (hins : env.insertOk = true) :
    (∃ body, (uploadPipeline req env).1 = UploadResp.created body) ∧
    ∃ rec1, Event.dbInsert rec1 ∈ (uploadPipeline req env).2 ∧
      rec1.duracao = 0 ∧ rec1.bitrate_video = 0 ∧ rec1.codec_video = "unknown" := by
  have hpf : ∀ x : String, probeFields x none =
      { duracao := 0, bitrateVideo := 0, codecVideo := "unknown",
        largura := 0, altura := 0, formatoOriginal := x.drop 1 } := fun _ => rfl
  have hcodec : isCompatibleCodec "unknown" = false := by decide
  simp [uploadPipeline, hfile, hext, hprobe, hfolder, hquota, hplace, hins, hpf, hcodec]

theorem C6_witness :
    c6Env.probe = none ∧
    ((∃ body, (uploadPipeline c6Req c6Env).1 = UploadResp.created body) ∧
     ∃ rec1, Event.dbInsert rec1 ∈ (uploadPipeline c6Req c6Env).2 ∧
       rec1.duracao = 0 ∧ rec1.bitrate_video = 0 ∧ rec1.codec_video = "unknown") :=
  ⟨rfl,
   C6_probe_failure_defaults c6Req c6Env c6Folder rfl (by decide) rfl rfl (by decide) rfl rfl⟩

/-- C7: a file whose lowercased extension is not ".mp4" is marked
needs_conversion regardless of codec and bitrate, and the final status is
the needs-conversion outcome rather than the bitrate one, on the create
path (201 body) and on the list path (row view). -/
theorem C7_non_mp4_needs_conversion (req : UploadReq) (env : UploadEnv) (f : Folder)
    (row : DbVideoRow) (limit : Nat)
    (hfile : req.hasFile = true)
    (hext : jsToLowerStr (extname req.originalname) ∈ videoExtensions)
    (hne : jsToLowerStr (extname req.originalname) ≠ ".mp4")
    (hfolder : env.folder = some f)
    (hquota : ¬ ((spaceMBOf req.size : Int) > (f.espaco : Int) - (f.espaco_usado : Int)))
    (hplace : env.placementOk = true)
    (hins : env.insertOk = true)
    (hrow : jsToLowerStr (extname row.nome) ≠ ".mp4") :
    (∃ body, (uploadPipeline req env).1 = UploadResp.created body ∧
       body.needs_conversion = true ∧
       body.compatibility_status = "Necessário Conversão") ∧
    (listCompatibility row limit).needs_conversion = true ∧
    (listCompatibility row limit).compatibility_status = "needs_conversion" := by
  constructor
  · have hmp4 : (jsToLowerStr (extname req.originalname) == ".mp4") = false := by
      simpa using hne
    simp [uploadPipeline, hfile, hext, hfolder, hquota, hplace, hins, hmp4, hne]
  · exact listCompat_forces_conversion row limit hrow

theorem C7_witness :
    jsToLowerStr (extname c7Req.originalname) ≠ ".mp4" ∧
    jsToLowerStr (extname c7Row.nome) ≠ ".mp4" ∧
    ((∃ body, (uploadPipeline c7Req c7Env).1 = UploadResp.created body ∧
        body.needs_conversion = true ∧
        body.compatibility_status = "Necessário Conversão") ∧
     (listCompatibility c7Row 2500).needs_conversion = true ∧
     (listCompatibility c7Row 2500).compatibility_status = "needs_conversion") :=
  ⟨by decide, by decide,
   C7_non_mp4_needs_conversion c7Req c7Env c7Folder c7Row 2500 rfl (by decide) (by decide)
     rfl (by decide) rfl rfl (by decide)⟩

/-- C8: from 0 ≤ used ≤ capacity, an accepted reservation (the code's check
spaceMB ≤ capacity − used) keeps used + spaceMB ≤ capacity; the GREATEST
release keeps the counter in [0, capacity]; and a reservation exceeding the
remaining capacity makes the pipeline perform nothing but the temp-file
unlink — no remote or persistence side effect. -/
theorem C8_quota_invariant (cap used s : Nat) (req : UploadReq) (env : UploadEnv) (f : Folder)
    (hinv : used ≤ cap) :
    (((s : Int) ≤ (cap : Int) - (used : Int)) → reserveUsed used s ≤ cap) ∧
    (0 ≤ releaseUsed used s ∧ releaseUsed used s ≤ (cap : Int)) ∧
    (env.folder = some f →
      ((spaceMBOf req.size : Int) > (f.espaco : Int) - (f.espaco_usado : Int)) →
      ∀ e ∈ (uploadPipeline req env).2, e = Event.unlinkTemp) := by
  refine ⟨?_, ⟨?_, ?_⟩, ?_⟩
  · intro h
    rw [reserveUsed]
    omega
  · rw [releaseUsed]
    exact le_max_right _ _
  · rw [releaseUsed]
    apply max_le <;> omega
  · intro hfolder hover e he
    cases h0 : req.hasFile with
    | false => simp [uploadPipeline, h0] at he
    | true =>
      by_cases h1 : jsToLowerStr (extname req.originalname) ∈ videoExtensions
      · simp [uploadPipeline, h0, h1, hfolder, hover] at he
        exact he
      · simp [uploadPipeline, h0, h1] at he
        exact he

theorem C8_witness :
    995 ≤ 1000 ∧
    (reserveUsed 995 5 ≤ 1000 ∧
     0 ≤ releaseUsed 995 5 ∧ releaseUsed 995 5 ≤ (1000 : Int)) ∧
    ((spaceMBOf c8Req.size : Int) > (c8Folder.espaco : Int) - (c8Folder.espaco_usado : Int)) ∧
    (∀ e ∈ (uploadPipeline c8Req c8Env).2, e = Event.unlinkTemp) := by
  obtain ⟨h1, ⟨h2a, h2b⟩, h3⟩ :=
    C8_quota_invariant 1000 995 5 c8Req c8Env c8Folder (by decide)
  exact ⟨by decide, ⟨h1 (by decide), h2a, h2b⟩, by decide, h3 rfl (by decide)⟩

/-- C9 counterexample: a create request without a destination identifier is
not rejected as a 400 validation error; with no destination named "default"
it reaches the 404 destination-not-found path. -/
theorem C9_missing_folder_id_not_validation :
    c9Req.folderId = none ∧
    uploadPipeline c9Req c9Env = (UploadResp.folderNotFound, []) :=
  ⟨rfl, rfl⟩

/-- C9 amended: a missing destination identifier is not a validation error:
the handler substitutes the identifier "default" (the pipeline behaves
exactly as if folder_id were "default"), and when no such destination exists
for the account the request is rejected 404 with no side effects. -/
theorem C9_amended_default_folder (req : UploadReq) (env : UploadEnv)
    (hmissing : req.folderId = none) :
    uploadPipeline req env = uploadPipeline { req with folderId := some "default" } env ∧
    (env.folder = none → req.hasFile = true →
      jsToLowerStr (extname req.originalname) ∈ videoExtensions →
      uploadPipeline req env = (UploadResp.folderNotFound, [])) := by
  constructor
  · cases req
    simp only at hmissing
    subst hmissing
    rfl
  · intro hf hfile hext
    simp [uploadPipeline, hfile, hext, hf]

theorem C9_amended_witness :
    c9Req.folderId = none ∧
    (uploadPipeline c9Req c9Env =
       uploadPipeline { c9Req with folderId := some "default" } c9Env ∧
     (c9Env.folder = none → c9Req.hasFile = true →
       jsToLowerStr (extname c9Req.originalname) ∈ videoExtensions →
       uploadPipeline c9Req c9Env = (UploadResp.folderNotFound, []))) :=
  ⟨rfl, C9_amended_default_folder c9Req c9Env rfl⟩

/-- C10: every character of the multer-generated filename — the timestamp,
an underscore, and the sanitized, underscore-collapsed original name — is a
letter, digit, dot, dash or underscore; in particular it is never a space
or a slash, so remote paths built from it contain no user-supplied special
characters. -/
theorem C10_generated_filename_safe (ts : Nat) (orig : String) (c : Char)
    (hc : c ∈ (generatedFilename ts orig).data) :
    safeFilenameChar c = true ∧ c ≠ ' ' ∧ c ≠ '/' := by
  have hsafe : safeFilenameChar c = true := by
    rw [generatedFilename_data] at hc
    rcases List.mem_append.mp hc with h | h
    · have hd := nat_repr_digits ts c h
      rw [safeFilenameChar, Char.isAlphanum, hd]
      simp
    · rcases List.mem_cons.mp h with h1 | h2
      · rw [h1]
        decide
      · have hmem := mem_collapseUnderscores _ c h2
        rcases List.mem_map.mp hmem with ⟨c0, _, hc0⟩
        rw [← hc0]
        exact sanitizeChar_safe c0
  refine ⟨hsafe, ?_, ?_⟩
  · intro he
    rw [he] at hsafe
    exact absurd hsafe (by decide)
  · intro he
    rw [he] at hsafe
    exact absurd hsafe (by decide)

theorem C10_witness :
    'v' ∈ (generatedFilename 1700000000000 "my video (1).mp4").data ∧
    (safeFilenameChar 'v' = true ∧ 'v' ≠ ' ' ∧ 'v' ≠ '/') :=
  ⟨by decide,
   C10_generated_filename_safe 1700000000000 "my video (1).mp4" 'v' (by decide)⟩

end Sam60
